import Mathlib

/-!
Verification of the MassResponseToTemp analysis scripts
(`Analysis_VN_CY.py`, `DatasetAnalysis_VN.py`) against their
natural-language specification.

The scripts form a linear pandas/GDAL pipeline:
load CSV → build month-code dictionary → compute stack indices →
deduplicate (longitude, latitude, stackID) triples → sample a raster →
merge → filter sentinel temperatures → filter small species groups →
per-species ordinary least squares → write outputs.

The shallow embedding below models:
  * dataframe columns as Lean lists of records;
  * Python `range(start, stop, step)` as `pyRange`;
  * Python `int()` on a float (truncation toward zero) as `pyInt`;
  * the GDAL raster as a structure carrying the six geotransform
    coefficients and, per band index, a band array (a total function
    `Int → Int → ℚ`, abstracting the finite numpy array) together with
    its decode offset and scale;
  * floating-point numbers as exact rationals (`ℚ`); the embedding is
    exact-arithmetic, so float rounding and NaN are outside the model;
  * `pandas.groupby` iteration as iteration over the distinct key values
    of the frame (`group_keys`; pandas iterates keys in sorted order,
    the model in first-occurrence order — every property stated below is
    insensitive to the order in which groups are visited);
  * the `smf.ols` simple linear regression `y ~ x` by the standard
    closed-form least-squares slope and R² in exact rational arithmetic
    (with Lean's total division, so a degenerate fit yields junk values
    rather than the float NaN of the original).

Plotting (matplotlib) and file output are side effects with no bearing
on any claim and are not modelled.

The file is organised as: all definitions first, then all theorems.
-/

/-! # Definitions -/

set_option maxRecDepth 16000

/-! ## Python `range` and `int` -/

/-- Number of elements of Python `range(start, stop, step)`.
Python raises `ValueError` for `step = 0`; the model returns 0 there
(no claim instantiates it). -/
def pyRangeLen (start stop step : Int) : Nat :=
  if 0 < step then
    if start < stop then (stop - start - 1).toNat / step.toNat + 1 else 0
  else if step < 0 then
    if stop < start then (start - stop - 1).toNat / (-step).toNat + 1 else 0
  else 0

/-- The list of elements of Python `range(start, stop, step)`. -/
def pyRange (start stop step : Int) : List Int :=
  (List.range (pyRangeLen start stop step)).map (fun (i : Nat) => start + (i : Int) * step)

/-- Python `int()` applied to a real number: truncation toward zero,
computed on the exact rational as the truncating division of numerator
by denominator.  (This is NOT the floor for negative arguments:
`int(-0.5) = 0` while `floor(-0.5) = -1`.) -/
def pyInt (q : ℚ) : Int :=
  q.num.tdiv q.den

/-! ## Month-code table builder

`create_month_codes_dict` (Analysis_VN_CY.py lines 12–30,
DatasetAnalysis_VN.py lines 38–56): builds `month_names` from
`calendar.month_name[1..12]`, computes `codes = range(jan_code,
dec_code, diff)`, and zips them into a dict.  Month names are pairwise
distinct, so the Python dict built by inserting the zipped pairs in
order is faithfully modelled by the association list `zip month_names
codes` (same key set, same values, same insertion order). -/

/-- `calendar.month_name[1..12]`. -/
def month_names : List String :=
  ["January", "February", "March", "April", "May", "June",
   "July", "August", "September", "October", "November", "December"]

/-- `create_month_codes_dict(jan_code, dec_code, diff)` as an
association list (Python dict with the same entries in the same
order). `zip` stops at the shorter list, exactly like Python's `zip`. -/
def create_month_codes_dict (jan_code dec_code diff : Int) : List (String × Int) :=
  month_names.zip (pyRange jan_code dec_code diff)

/-- Python dict lookup `d[k]` on the association list, as an `Option`. -/
def dict_get (d : List (String × Int)) (k : String) : Option Int :=
  (d.find? (fun p => p.1 == k)).map Prod.snd

/-! ## Stack-index calculator -/

/-- `get_stackID` (Analysis_VN_CY.py lines 32–43, DatasetAnalysis_VN.py
lines 58–69). -/
def get_stackID (year month_code : Int) : Int :=
  year * 12 - month_code

/-! ## Raster point sampler

`get_temps_list` (Analysis_VN_CY.py lines 46–71, DatasetAnalysis_VN.py
lines 72–98).  The GDAL raster file is modelled by `Raster`: the six
geotransform coefficients `gt0..gt5` (`GetGeoTransform()[0..5]`) and a
band per integer index (`GetRasterBand`).  A band holds its 2D packed
array (`ReadAsArray()`, abstracted to a total function on `Int × Int`
since every claim concerns in-range accesses), its `GetOffset()` and
its `GetScale()`. -/

/-- One raster band: packed array (indexed `arr row col`, i.e.
`band_array[y, x]`), decode offset, decode scale. -/
structure RasterBand where
  arr : Int → Int → ℚ
  add_offset : ℚ
  scale_factor : ℚ

/-- The opened raster file: geotransform coefficients and bands. -/
structure Raster where
  gt0 : ℚ -- origin X
  gt1 : ℚ -- pixel width
  gt2 : ℚ -- rotation (unused by the script)
  gt3 : ℚ -- origin Y
  gt4 : ℚ -- rotation (unused by the script)
  gt5 : ℚ -- pixel height
  getRasterBand : Int → RasterBand

/-- `get_temps_list(coordinates, bands)`: for `i in range(len(bands))`,
compute `x = int((coordinates[i][0] - gt[0])/gt[1])`,
`y = int((coordinates[i][1] - gt[3])/gt[5])`, read
`band_array[y, x]` from the band at index `bands[i]`, and decode as
`add_offset + packed_temp * scale_factor`.  Coordinates are `(x, y)` =
(longitude, latitude) pairs.  The `getD` defaults are never reached
when `coordinates` and `bands` have equal length (Python raises
`IndexError` otherwise). -/
def get_temps_list (open_file : Raster) (coordinates : List (ℚ × ℚ)) (bands : List Int) :
    List ℚ :=
  (List.range bands.length).map (fun (i : Nat) =>
    let single_band := open_file.getRasterBand (bands.getD i 0)
    let x := pyInt (((coordinates.getD i (0, 0)).1 - open_file.gt0) / open_file.gt1)
    let y := pyInt (((coordinates.getD i (0, 0)).2 - open_file.gt3) / open_file.gt5)
    let packed_temp := single_band.arr y x
    single_band.add_offset + packed_temp * single_band.scale_factor)

/-- The decoded sample for one coordinate pair and one band index —
the body of the `get_temps_list` loop for a single entry. -/
def sample_point (r : Raster) (c : ℚ × ℚ) (b : Int) : ℚ :=
  let band := r.getRasterBand b
  band.add_offset +
    band.arr (pyInt ((c.2 - r.gt3) / r.gt5)) (pyInt ((c.1 - r.gt0) / r.gt1)) *
      band.scale_factor

/-! ## Specimen records and the merged frame

`individual_data` is loaded with columns `row_index`,
`clean_genus_species`, `class`, `year`, `longitude`, `decimallatitude`,
`mass`; the pipeline then adds `stackID_july` and (after the merge)
`july_temps`.  `IRow` models a row of `individual_data` (with the
derived `stackID_july` computed by `stackID_july`), `DataRow` a row of
the merged `temp_data` frame. -/

/-- A row of `individual_data` as loaded from `CompleteDatasetVN.csv`. -/
structure IRow where
  row_index : Int
  clean_genus_species : String
  taxClass : String -- the `class` column
  year : Int
  longitude : ℚ
  decimallatitude : ℚ
  mass : ℚ
deriving DecidableEq

/-- A row of the merged `temp_data` frame (an `IRow` enriched with
`stackID_july` and `july_temps`). -/
structure DataRow where
  row_index : Int
  clean_genus_species : String
  taxClass : String -- the `class` column
  year : Int
  longitude : ℚ
  decimallatitude : ℚ
  mass : ℚ
  stackID_july : Int
  july_temps : ℚ
deriving DecidableEq

/-- The distinct values of a grouping column, i.e. the keys over which
`dataframe.groupby(col)` iterates.  (pandas visits keys in sorted
order, the model in first-occurrence order; all stated properties are
order-insensitive.) -/
def group_keys (df : List DataRow) (col : DataRow → String) : List String :=
  (df.map col).dedup

/-- The group of rows for one key value of `dataframe.groupby(col)`. -/
def species_group (df : List DataRow) (col : DataRow → String) (s : String) :
    List DataRow :=
  df.filter (fun r => col r == s)

/-- `len(species_data["row_index"].unique())` for the group of `s`. -/
def unique_individuals (df : List DataRow) (col : DataRow → String) (s : String) : Nat :=
  ((species_group df col s).map DataRow.row_index).dedup.length

/-! ## Species filter

`remove_species` (Analysis_VN_CY.py lines 73–90, DatasetAnalysis_VN.py
lines 100–117). -/

/-- The species whose groups have fewer than 30 distinct `row_index`
values. -/
def insufficient_species (df : List DataRow) (col : DataRow → String) : List String :=
  (group_keys df col).filter (fun s => unique_individuals df col s < 30)

/-- `remove_species(dataframe, species_col)`: keep the rows whose
species is not in `insufficient_species`
(`dataframe[dataframe[species_col].isin(insufficient_species) == False]`). -/
def remove_species (df : List DataRow) (species_col : DataRow → String) : List DataRow :=
  df.filter (fun r => !((insufficient_species df species_col).contains (species_col r)))

/-! ## Pipeline stages (Analysis_VN_CY.py lines 141–162)

`month_codes = create_month_codes_dict(22799, 22787, -1)`;
`individual_data["stackID_july"] = get_stackID(year, month_codes["July"])`;
`temp_lookup = individual_data[[lon, lat, stackID]].drop_duplicates()`;
`temp_lookup["july_temps"] = get_temps_list(...)`;
`temp_data = individual_data.merge(temp_lookup)`;
`temp_data = temp_data[temp_data["july_temps"] < 3276]`;
`stats_data = remove_species(temp_data, "clean_genus_species")`. -/

/-- `month_codes["July"]` for `month_codes =
create_month_codes_dict(22799, 22787, -1)` (the value is 22793). -/
def july_code : Int :=
  (dict_get (create_month_codes_dict 22799 22787 (-1)) "July").getD 0

/-- The derived `stackID_july` column. -/
def stackID_july (r : IRow) : Int :=
  get_stackID r.year july_code

/-- The `(longitude, decimallatitude, stackID_july)` triple of a row —
the Temperature Lookup Key. -/
def lookup_key (r : IRow) : ℚ × ℚ × Int :=
  (r.longitude, r.decimallatitude, stackID_july r)

/-- `temp_lookup`: the key columns with duplicates dropped
(`drop_duplicates()` keeps the first occurrence of each triple). -/
def temp_lookup (rows : List IRow) : List (ℚ × ℚ × Int) :=
  (rows.map lookup_key).dedup

/-- `temp_lookup` after `temp_lookup["july_temps"] =
get_temps_list(temp_lookup[["longitude", "decimallatitude"]],
temp_lookup["stackID_july"])`: each deduplicated key paired with its
sampled temperature. -/
def temp_lookup_table (raster : Raster) (rows : List IRow) :
    List ((ℚ × ℚ × Int) × ℚ) :=
  let keys := temp_lookup rows
  keys.zip (get_temps_list raster (keys.map (fun k => (k.1, k.2.1)))
    (keys.map (fun k => k.2.2)))

/-- The `july_temps` value the merge attaches to a key: the value of
the (unique) `temp_lookup` row with that key. -/
def find_temp (table : List ((ℚ × ℚ × Int) × ℚ)) (k : ℚ × ℚ × Int) : ℚ :=
  ((table.find? (fun p => p.1 == k)).map Prod.snd).getD 0

/-- The number of occurrences of a Temperature Lookup Key in a list of
keys (used to state "each key is sampled exactly once"). -/
def key_count (l : List (ℚ × ℚ × Int)) (k : ℚ × ℚ × Int) : Nat :=
  l.countP (fun x => decide (x = k))

/-- `temp_data = individual_data.merge(temp_lookup)`: an inner join on
the shared columns `(longitude, decimallatitude, stackID_july)`.
Every `individual_data` row's key occurs exactly once in `temp_lookup`,
so each row matches exactly one lookup row and receives its
`july_temps`. -/
def temp_data (raster : Raster) (rows : List IRow) : List DataRow :=
  rows.map (fun r =>
    { row_index := r.row_index
      clean_genus_species := r.clean_genus_species
      taxClass := r.taxClass
      year := r.year
      longitude := r.longitude
      decimallatitude := r.decimallatitude
      mass := r.mass
      stackID_july := stackID_july r
      july_temps := find_temp (temp_lookup_table raster rows) (lookup_key r) })

/-- `temp_data = temp_data[temp_data["july_temps"] < 3276]`
(Analysis_VN_CY.py line 156): drop missing-data sentinel values. -/
def temp_data_valid (rows : List DataRow) : List DataRow :=
  rows.filter (fun r => decide (r.july_temps < 3276))

/-- `stats_data = remove_species(temp_data, "clean_genus_species")`
(Analysis_VN_CY.py line 159). -/
def stats_data (rows : List DataRow) : List DataRow :=
  remove_species (temp_data_valid rows) DataRow.clean_genus_species

/-! ## Per-species regression loop

`lin_reg` (Analysis_VN_CY.py lines 92–128).  `smf.ols("y ~ x").fit()`
is modelled by the closed-form simple-regression formulas in exact
rational arithmetic.  Lean's rational division is total with
`q / 0 = 0`, so a degenerate fit (zero predictor or response variance)
produces junk finite values where the original's floating point
produces NaN; no claim below depends on the numeric value of a
degenerate fit. -/

/-- Mean of a list of rationals (`0` for the empty list, which no
group ever is). -/
def mean (l : List ℚ) : ℚ :=
  l.sum / l.length

/-- Least-squares slope of `y ~ x` (the `params[1]` of the fit). -/
def ols_slope (xs ys : List ℚ) : ℚ :=
  ((xs.zip ys).map (fun p => (p.1 - mean xs) * (p.2 - mean ys))).sum /
    (xs.map (fun x => (x - mean xs) ^ 2)).sum

/-- Coefficient of determination R² of `y ~ x` (the `rsquared` of the
fit): `1 - SSE / SST` for the fitted line. -/
def ols_rsq (xs ys : List ℚ) : ℚ :=
  let slope := ols_slope xs ys
  let intercept := mean ys - slope * mean xs
  let sse := ((xs.zip ys).map (fun p => (p.2 - (intercept + slope * p.1)) ^ 2)).sum
  let sst := (ys.map (fun y => (y - mean ys) ^ 2)).sum
  1 - sse / sst

/-- One row of the `stats_list` dataframe built by `lin_reg`. -/
structure RegressionSummary where
  genus_species : String
  taxClass : String
  individuals : Nat
  hemisphere : String
  temp_r_squared : ℚ
  temp_slope : ℚ
  lat_r_squared : ℚ
  lat_slope : ℚ
deriving DecidableEq

/-- `lin_reg(dataset, speciesID_col)`: for every species group, fit
`mass ~ july_temps` and `mass ~ abs(decimallatitude)`, classify the
hemisphere by the sign of the mean latitude, and append one summary
record.  There is no guard of any kind: every group — however small or
degenerate — is fitted and recorded, and the function is total.
(Plot generation is elided.) -/
def lin_reg (dataset : List DataRow) (speciesID_col : DataRow → String) :
    List RegressionSummary :=
  (group_keys dataset speciesID_col).map (fun species =>
    let species_data := species_group dataset speciesID_col species
    let sp_class := ((species_data.map DataRow.taxClass).dedup).headD ""
    let temps := species_data.map DataRow.july_temps
    let masses := species_data.map DataRow.mass
    let lats := species_data.map DataRow.decimallatitude
    let abs_lats := lats.map (fun l => |l|)
    { genus_species := species
      taxClass := sp_class
      individuals := (species_data.map DataRow.row_index).dedup.length
      hemisphere := if mean lats < 0 then "south" else "north"
      temp_r_squared := ols_rsq temps masses
      temp_slope := ols_slope temps masses
      lat_r_squared := ols_rsq abs_lats masses
      lat_slope := ols_slope abs_lats masses })

/-! ## Concrete instances for witnesses and counterexamples -/

/-- A raster whose band array returns the column index: distinguishes
truncation from flooring of the column coordinate. -/
def cexRaster : Raster :=
  { gt0 := 0, gt1 := 1, gt2 := 0, gt3 := 0, gt4 := 0, gt5 := 1
    getRasterBand := fun _ =>
      { arr := fun _ col => (col : ℚ), add_offset := 0, scale_factor := 1 } }

/-- A raster whose every band reads 5 everywhere. -/
def flatRaster : Raster :=
  { gt0 := 0, gt1 := 1, gt2 := 0, gt3 := 0, gt4 := 0, gt5 := 1
    getRasterBand := fun _ =>
      { arr := fun _ _ => 5, add_offset := 0, scale_factor := 1 } }

/-- A merged-frame row with the given row index, species and sampled
temperature. -/
def mkRow (i : Int) (s : String) (t : ℚ) : DataRow :=
  { row_index := i, clean_genus_species := s, taxClass := "Aves", year := 2000,
    longitude := 10, decimallatitude := 40, mass := (i : ℚ),
    stackID_july := 0, july_temps := t }

/-- 30 distinct individuals of species "A" followed by 29 distinct
individuals of species "B", all with valid temperatures. -/
def dfW : List DataRow :=
  ((List.range 30).map (fun (n : Nat) => mkRow (n : Int) "A" 20)) ++
    ((List.range 29).map (fun (n : Nat) => mkRow (n : Int) "B" 21))

/-- The first record of species "A" in `dfW`. -/
def rowA : DataRow := mkRow 0 "A" 20

/-- An `individual_data` row with the given row index and mass at a
fixed location and year. -/
def mkIRow (i : Int) (m : ℚ) : IRow :=
  { row_index := i, clean_genus_species := "A", taxClass := "Aves", year := 2000,
    longitude := 0, decimallatitude := 0, mass := m }

/-- Two specimen records sharing one Temperature Lookup Key. -/
def rowsW : List IRow := [mkIRow 0 7, mkIRow 1 9]

/-- The merged rows produced by `temp_data flatRaster rowsW`:
`stackID_july = 2000 * 12 - 22793 = 1207` and `july_temps = 5`
(the flat raster decodes every cell to `0 + 5 * 1`). -/
def dRow1 : DataRow :=
  { row_index := 0, clean_genus_species := "A", taxClass := "Aves", year := 2000,
    longitude := 0, decimallatitude := 0, mass := 7,
    stackID_july := 1207, july_temps := 5 }

def dRow2 : DataRow :=
  { row_index := 1, clean_genus_species := "A", taxClass := "Aves", year := 2000,
    longitude := 0, decimallatitude := 0, mass := 9,
    stackID_july := 1207, july_temps := 5 }

/-- A single record forming a species group with one element — hence
fewer than 2 distinct temperature values. -/
def degRow : DataRow := mkRow 0 "X" 20

/-! # Theorems -/

/-! ## Arithmetic helper lemmas -/

theorem pyInt_eq_floor_of_nonneg (q : ℚ) (h : 0 ≤ q) : pyInt q = Int.floor q := by
  rw [pyInt, Rat.floor_def]
  exact Int.tdiv_eq_ediv (Rat.num_nonneg.mpr h) (Int.natCast_nonneg _)

theorem length_pyRange (start stop step : Int) :
    (pyRange start stop step).length = pyRangeLen start stop step := by
  rw [pyRange, List.length_map, List.length_range]

/-! ## Generic zip lemmas -/

theorem map_fst_zip_eq_take {α β : Type} (l₁ : List α) (l₂ : List β) :
    (l₁.zip l₂).map Prod.fst = l₁.take l₂.length := by
  induction l₁ generalizing l₂ with
  | nil => simp
  | cons a l₁ ih =>
    cases l₂ with
    | nil => simp
    | cons b l₂ => simp [ih]

theorem map_snd_zip_eq_take {α β : Type} (l₁ : List α) (l₂ : List β) :
    (l₁.zip l₂).map Prod.snd = l₂.take l₁.length := by
  induction l₁ generalizing l₂ with
  | nil => simp
  | cons a l₁ ih =>
    cases l₂ with
    | nil => simp
    | cons b l₂ => simp [ih]

/-! ## Claims C3, C5, C8, C10 (month-code table and stack index) -/

/-- C3: `create_month_codes_dict(22799, 22787, -1)` returns exactly the
twelve calendar months in calendar order with codes descending by 1
from January:22799 to December:22788 (month k, January = 0, maps to
`22799 - k`). -/
theorem create_month_codes_dict_example :
    create_month_codes_dict 22799 22787 (-1) =
      [("January", 22799), ("February", 22798), ("March", 22797),
       ("April", 22796), ("May", 22795), ("June", 22794),
       ("July", 22793), ("August", 22792), ("September", 22791),
       ("October", 22790), ("November", 22789), ("December", 22788)] := by
  decide

/-- C5: `get_stackID` returns exactly `year * 12 - month_code` for every
input, and `get_stackID 2010 22788 = 1332`.  It is a pure Lean function,
so determinism (identical output for identical input) and absence of
side effects hold by construction. -/
theorem get_stackID_spec :
    (∀ year month_code : Int, get_stackID year month_code = year * 12 - month_code) ∧
    get_stackID 2010 22788 = 1332 :=
  ⟨fun _ _ => rfl, by decide⟩

/-- C8: when the arithmetic sequence `range(jan_code, dec_code, diff)`
has fewer than 12 elements, `create_month_codes_dict` raises no error
(it is a total function) and returns a mapping in which exactly the
first `pyRangeLen` months, in calendar order, receive codes — the
excess month names are silently left unmapped, and every generated code
is used. -/
theorem create_month_codes_dict_truncates (jan_code dec_code diff : Int)
    (hdiff : diff ≠ 0) (hlt : pyRangeLen jan_code dec_code diff < 12) :
    (create_month_codes_dict jan_code dec_code diff).length
        = pyRangeLen jan_code dec_code diff ∧
    (create_month_codes_dict jan_code dec_code diff).map Prod.fst
        = month_names.take (pyRangeLen jan_code dec_code diff) ∧
    (create_month_codes_dict jan_code dec_code diff).map Prod.snd
        = pyRange jan_code dec_code diff := by
  have hm : month_names.length = 12 := by decide
  have hlen : (pyRange jan_code dec_code diff).length
      = pyRangeLen jan_code dec_code diff := length_pyRange _ _ _
  refine ⟨?_, ?_, ?_⟩
  · rw [create_month_codes_dict, List.length_zip, hm, hlen]
    exact Nat.min_eq_right (Nat.le_of_lt hlt)
  · rw [create_month_codes_dict, map_fst_zip_eq_take, hlen]
  · rw [create_month_codes_dict, map_snd_zip_eq_take, hm]
    exact List.take_of_length_le (by rw [hlen]; exact Nat.le_of_lt hlt)

/-- Witness for C8 at `jan_code = 22799, dec_code = 22796, diff = -1`
(a 3-element sequence): only January, February, March are mapped. -/
theorem create_month_codes_dict_truncates_witness :
    ((-1 : Int) ≠ 0 ∧ pyRangeLen 22799 22796 (-1) < 12) ∧
    (create_month_codes_dict 22799 22796 (-1)).length
        = pyRangeLen 22799 22796 (-1) ∧
    (create_month_codes_dict 22799 22796 (-1)).map Prod.fst
        = month_names.take (pyRangeLen 22799 22796 (-1)) ∧
    (create_month_codes_dict 22799 22796 (-1)).map Prod.snd
        = pyRange 22799 22796 (-1) :=
  ⟨⟨by decide, by decide⟩,
    create_month_codes_dict_truncates 22799 22796 (-1) (by decide) (by decide)⟩

/-- C10: for every nonzero step, the mapping has at most 12 entries and
its keys are a subset of the twelve canonical month names, even when
the arithmetic sequence holds more than 12 values. -/
theorem create_month_codes_dict_at_most_twelve (jan_code dec_code diff : Int)
    (hdiff : diff ≠ 0) :
    (create_month_codes_dict jan_code dec_code diff).length ≤ 12 ∧
    ∀ p ∈ create_month_codes_dict jan_code dec_code diff, p.1 ∈ month_names := by
  constructor
  · rw [create_month_codes_dict, List.length_zip]
    have hm : month_names.length = 12 := by decide
    calc min month_names.length (pyRange jan_code dec_code diff).length
        ≤ month_names.length := Nat.min_le_left _ _
      _ = 12 := hm
  · intro p hp
    exact (List.of_mem_zip hp).1

/-- Witness for C10 at `jan_code = 0, dec_code = 100, diff = 1`
(a 100-element sequence, far more than 12). -/
theorem create_month_codes_dict_at_most_twelve_witness :
    (1 : Int) ≠ 0 ∧
    ((create_month_codes_dict 0 100 1).length ≤ 12 ∧
      ∀ p ∈ create_month_codes_dict 0 100 1, p.1 ∈ month_names) :=
  ⟨by decide, create_month_codes_dict_at_most_twelve 0 100 1 (by decide)⟩

/-! ## Claims C1, C6 (raster point sampler) -/

theorem length_get_temps_list (r : Raster) (cs : List (ℚ × ℚ)) (bs : List Int) :
    (get_temps_list r cs bs).length = bs.length := by
  rw [get_temps_list, List.length_map, List.length_range]

theorem get_temps_list_eq_zip_map (r : Raster) (cs : List (ℚ × ℚ)) (bs : List Int)
    (h : cs.length = bs.length) :
    get_temps_list r cs bs = (cs.zip bs).map (fun p => sample_point r p.1 p.2) := by
  apply List.ext_getElem
  · simp [get_temps_list, List.length_zip, h]
  · intro i h1 h2
    have hb : i < bs.length := by
      simpa [get_temps_list] using h1
    have hc : i < cs.length := by rw [h]; exact hb
    simp only [get_temps_list, List.getElem_map, List.getElem_range, List.getElem_zip,
      List.getD_eq_getElem _ _ hb, List.getD_eq_getElem _ _ hc, sample_point]

/-- C6: for N coordinate pairs and N parallel band indices, the sampler
returns exactly N values, the i-th being the decoded sample
(`sample_point`) of the i-th coordinate and i-th band index (stated as
the equality with the zipped map, which fixes both length and order),
and the output is a function of the raster and the inputs alone
(identical output for identical input). -/
theorem get_temps_list_spec (r : Raster) (cs : List (ℚ × ℚ)) (bs : List Int)
    (h : cs.length = bs.length) :
    (get_temps_list r cs bs).length = bs.length ∧
    get_temps_list r cs bs = (cs.zip bs).map (fun p => sample_point r p.1 p.2) ∧
    (∀ cs' bs', cs' = cs → bs' = bs →
      get_temps_list r cs' bs' = get_temps_list r cs bs) := by
  refine ⟨length_get_temps_list r cs bs, get_temps_list_eq_zip_map r cs bs h, ?_⟩
  intro cs' bs' hc hb
  rw [hc, hb]

/-- Witness for C6 on the flat raster with one coordinate and one band. -/
theorem get_temps_list_spec_witness :
    [((1 : ℚ)/2, (1 : ℚ)/2)].length = [(3 : Int)].length ∧
    (get_temps_list flatRaster [((1 : ℚ)/2, (1 : ℚ)/2)] [3]).length = [(3 : Int)].length ∧
    get_temps_list flatRaster [((1 : ℚ)/2, (1 : ℚ)/2)] [3]
      = ([((1 : ℚ)/2, (1 : ℚ)/2)].zip [(3 : Int)]).map
          (fun p => sample_point flatRaster p.1 p.2) ∧
    get_temps_list flatRaster [((1 : ℚ)/2, (1 : ℚ)/2)] [3]
      = get_temps_list flatRaster [((1 : ℚ)/2, (1 : ℚ)/2)] [3] := by
  have h := get_temps_list_spec flatRaster [((1 : ℚ)/2, (1 : ℚ)/2)] [3] (by decide)
  exact ⟨by decide, h.1, h.2.1, h.2.2 _ _ rfl rfl⟩

/-- C1 counterexample: the sampler uses Python `int()` — truncation
toward zero — not `floor`, to convert coordinates to column/row.  At
`x = -1/2` on a raster with origin 0, pixel width 1 and band array
`arr row col = col`, the code reads column `int(-1/2) = 0` and returns
`[0]`, whereas the claimed `floor`-based formula names the element at
column `⌊-1/2⌋ = -1`, i.e. the value `-1`. -/
theorem get_temps_list_floor_cex :
    get_temps_list cexRaster [((-1 : ℚ)/2, 0)] [1] ≠
      [(cexRaster.getRasterBand 1).add_offset +
        (cexRaster.getRasterBand 1).arr
          (Int.floor (((0 : ℚ) - cexRaster.gt3) / cexRaster.gt5))
          (Int.floor (((-1 : ℚ)/2 - cexRaster.gt0) / cexRaster.gt1)) *
        (cexRaster.getRasterBand 1).scale_factor] := by
  with_unfolding_all decide

/-- C1 (amended): the i-th returned value equals
`offset + band_array[row, col] * scale` where
`col = int((x - originX) / pixelWidth)` and
`row = int((y - originY) / pixelHeight)` with `int` the Python
truncation toward zero (`pyInt`), which agrees with the claimed `floor`
exactly when the quotient is nonnegative. -/
theorem get_temps_list_index_formula (r : Raster) (cs : List (ℚ × ℚ)) (bs : List Int)
    (h : cs.length = bs.length) (i : Nat) (hi : i < bs.length) :
    (get_temps_list r cs bs).getD i 0 =
      (r.getRasterBand (bs.getD i 0)).add_offset +
        (r.getRasterBand (bs.getD i 0)).arr
          (pyInt (((cs.getD i (0, 0)).2 - r.gt3) / r.gt5))
          (pyInt (((cs.getD i (0, 0)).1 - r.gt0) / r.gt1)) *
        (r.getRasterBand (bs.getD i 0)).scale_factor ∧
    (∀ q : ℚ, 0 ≤ q → pyInt q = Int.floor q) := by
  constructor
  · have hlen : i < (get_temps_list r cs bs).length := by
      rw [length_get_temps_list]; exact hi
    rw [List.getD_eq_getElem _ _ hlen]
    simp only [get_temps_list, List.getElem_map, List.getElem_range]
  · exact pyInt_eq_floor_of_nonneg

/-- Witness for C1 (amended) on the counterexample raster, coordinate
`(-1/2, 0)`, band 1, index 0: the code's value is the one at truncated
(not floored) indices, and `pyInt` agrees with `floor` on the
nonnegative quotient `1/2`. -/
theorem get_temps_list_index_formula_witness :
    ([((-1 : ℚ)/2, (0 : ℚ))].length = [(1 : Int)].length ∧ 0 < [(1 : Int)].length) ∧
    (get_temps_list cexRaster [((-1 : ℚ)/2, 0)] [1]).getD 0 0 =
      (cexRaster.getRasterBand ([(1 : Int)].getD 0 0)).add_offset +
        (cexRaster.getRasterBand ([(1 : Int)].getD 0 0)).arr
          (pyInt ((([((-1 : ℚ)/2, (0 : ℚ))].getD 0 (0, 0)).2 - cexRaster.gt3) / cexRaster.gt5))
          (pyInt ((([((-1 : ℚ)/2, (0 : ℚ))].getD 0 (0, 0)).1 - cexRaster.gt0) / cexRaster.gt1)) *
        (cexRaster.getRasterBand ([(1 : Int)].getD 0 0)).scale_factor ∧
    pyInt ((1 : ℚ)/2) = Int.floor ((1 : ℚ)/2) := by
  have h := get_temps_list_index_formula cexRaster [((-1 : ℚ)/2, 0)] [1]
    (by decide) 0 (by decide)
  exact ⟨⟨by decide, by decide⟩, h.1, h.2 ((1 : ℚ)/2) (by norm_num)⟩

/-! ## Claim C2 (species filter) -/

/-- C2: a record of the input survives `remove_species` exactly when
its species group has at least 30 distinct `row_index` values — groups
below the threshold are dropped entirely (every record of such a group
fails the right-hand side and is removed), groups at or above it are
retained in full. -/
theorem remove_species_spec (df : List DataRow) (species_col : DataRow → String)
    (r : DataRow) (hr : r ∈ df) :
    r ∈ remove_species df species_col ↔
      30 ≤ unique_individuals df species_col (species_col r) := by
  have hkey : species_col r ∈ group_keys df species_col :=
    List.mem_dedup.mpr (List.mem_map_of_mem species_col hr)
  rw [remove_species, List.mem_filter]
  simp only [Bool.not_eq_true', List.elem_eq_mem, decide_eq_false_iff_not,
    insufficient_species, List.mem_filter, decide_eq_true_eq, not_and, not_lt]
  constructor
  · rintro ⟨-, h2⟩
    exact h2 hkey
  · intro h30
    exact ⟨hr, fun _ => h30⟩

/-- Witness for C2: in a frame holding 30 distinct individuals of
species "A" and 29 of species "B", the first "A" record is retained
because its group's distinct-individual count reaches 30. -/
theorem remove_species_spec_witness :
    rowA ∈ dfW ∧
    (rowA ∈ remove_species dfW DataRow.clean_genus_species ↔
      30 ≤ unique_individuals dfW DataRow.clean_genus_species
        (DataRow.clean_genus_species rowA)) :=
  ⟨by with_unfolding_all decide,
    remove_species_spec dfW DataRow.clean_genus_species rowA
      (by with_unfolding_all decide)⟩

/-! ## Claim C4 (sentinel filter before regression) -/

/-- C4: every record of every species group that the regression loop is
run on (the groups of `stats_data`, the frame obtained by dropping
sentinel temperatures and then small species) has a sampled temperature
strictly below 3276 — the sentinel rows are removed before species
filtering and regression, so no fitted regression includes one. -/
theorem no_sentinel_in_regression (rows : List DataRow) (r : DataRow) (s : String)
    (hr : r ∈ species_group (stats_data rows) DataRow.clean_genus_species s) :
    r.july_temps < 3276 := by
  have h1 : r ∈ stats_data rows := (List.mem_filter.mp hr).1
  have h2 : r ∈ temp_data_valid rows := (List.mem_filter.mp h1).1
  have h3 := (List.mem_filter.mp h2).2
  simpa using h3

/-- Witness for C4: the first "A" record belongs to the "A" group of
`stats_data dfW`, and its temperature 20 is below 3276. -/
theorem no_sentinel_in_regression_witness :
    rowA ∈ species_group (stats_data dfW) DataRow.clean_genus_species "A" ∧
    rowA.july_temps < 3276 :=
  ⟨by with_unfolding_all decide,
    no_sentinel_in_regression dfW rowA "A" (by with_unfolding_all decide)⟩

/-! ## Claim C9 (temperature lookup deduplication) -/

/-- C9: the pipeline deduplicates the (longitude, latitude,
stack-index) triples before sampling: the sampler input `temp_lookup`
has no duplicate triples, every triple of the dataset occurs in it
exactly once (so each unique key is sampled exactly once), and after
the merge any two records of `temp_data` sharing a triple carry the
same sampled `july_temps` value. -/
theorem temp_lookup_spec (raster : Raster) (rows : List IRow) :
    (temp_lookup rows).Nodup ∧
    (∀ k, k ∈ rows.map lookup_key →
      k ∈ temp_lookup rows ∧ key_count (temp_lookup rows) k = 1) ∧
    (∀ r1 r2 : DataRow, r1 ∈ temp_data raster rows → r2 ∈ temp_data raster rows →
      (r1.longitude, r1.decimallatitude, r1.stackID_july)
        = (r2.longitude, r2.decimallatitude, r2.stackID_july) →
      r1.july_temps = r2.july_temps) := by
  refine ⟨List.nodup_dedup _, ?_, ?_⟩
  · intro k hk
    have hmem : k ∈ temp_lookup rows := List.mem_dedup.mpr hk
    exact ⟨hmem, List.count_eq_one_of_mem (List.nodup_dedup _) hmem⟩
  · intro r1 r2 h1 h2 heq
    obtain ⟨a, ha, rfl⟩ := List.mem_map.mp h1
    obtain ⟨b, hb, rfl⟩ := List.mem_map.mp h2
    have hab : lookup_key a = lookup_key b := heq
    show find_temp (temp_lookup_table raster rows) (lookup_key a)
        = find_temp (temp_lookup_table raster rows) (lookup_key b)
    rw [hab]

/-- Witness for C9: two records at the same location and year share one
Temperature Lookup Key; the key list is duplicate-free, the key is
sampled once, and both merged records carry the same temperature. -/
theorem temp_lookup_spec_witness :
    (temp_lookup rowsW).Nodup ∧
    (lookup_key (mkIRow 0 7) ∈ temp_lookup rowsW ∧
      key_count (temp_lookup rowsW) (lookup_key (mkIRow 0 7)) = 1) ∧
    dRow1.july_temps = dRow2.july_temps :=
  ⟨(temp_lookup_spec flatRaster rowsW).1,
    (temp_lookup_spec flatRaster rowsW).2.1 (lookup_key (mkIRow 0 7))
      (by with_unfolding_all decide),
    (temp_lookup_spec flatRaster rowsW).2.2 dRow1 dRow2
      (by with_unfolding_all decide) (by with_unfolding_all decide)
      (by with_unfolding_all decide)⟩

/-! ## Claim C7 (regression loop and degenerate groups) -/

/-- C7 counterexample: a species group consisting of a single record —
hence with only one distinct temperature value — is neither skipped nor
rejected by `lin_reg`: the loop fits it and records a summary for it
(the output names the species "X"), directly contradicting "fails with
a DegenerateFit kind of error for that group or skips it (recording no
summary for it)". -/
theorem lin_reg_degenerate_group_cex :
    ([degRow].map DataRow.july_temps).dedup.length = 1 ∧
    (lin_reg [degRow] DataRow.clean_genus_species).map
      RegressionSummary.genus_species = ["X"] := by
  with_unfolding_all decide

/-- C7 (amended): `lin_reg` performs no degenerate-fit guard at all: it
is a total function that fits and records exactly one summary per
species group, in group order, whatever the group's contents — a group
with fewer than 2 distinct temperature values is neither skipped nor
reported as an error (in the original's floating point such a fit
yields NaN statistics in the recorded summary). -/
theorem lin_reg_one_summary_per_group (dataset : List DataRow)
    (speciesID_col : DataRow → String) :
    (lin_reg dataset speciesID_col).map RegressionSummary.genus_species
      = group_keys dataset speciesID_col := by
  rw [lin_reg, List.map_map]
  exact List.map_id' _
